import Mathlib

/-!
Shallow embedding of `src/climate_data_app.py` (station climate-data
consolidation tool).  Pure Python functions become Lean functions; the
pandas-based file reader and the station-processing loop are modelled as
explicit list recursions; float values are modelled as rationals.
-/

namespace ClimateApp

/-- Cell of the consolidated table: a numeric measurement, an explicit
missing marker (pandas `NaN`), or a textual label (the `"Mean"` sentinel). -/
inductive Cell
  | Numeric (v : ℚ)
  | Missing
  | Label (s : String)
deriving DecidableEq, Repr

/-! ## YearDecoder: `extract_year_from_filename`

The Python code runs `re.search` with pattern dot, two digits, then
optionally a dot followed by a dot-free run, anchored at the end of the
string (IGNORECASE is a no-op: the pattern has no cased characters).
`re.search` tries each start position left to right, so the embedding
scans the character list from the head and at each position checks
whether the anchored pattern matches the remaining suffix. -/

/-- Matches the optional tail `(?:\.[^.]*)?$` of the regex: the rest of
the string after the two digits must be empty, or a dot followed by
characters none of which is a dot. -/
def tailPatternOk : List Char → Bool
  | [] => true
  | c :: r => decide (c = '.') && r.all (fun x => decide (x ≠ '.'))

/-- Attempts the regex match at the current position: a dot, two digits,
and then `tailPatternOk` for the remainder; returns the two-digit tag
(`int(match.group(1))`). -/
def matchHere : List Char → Option Nat
  | c :: d1 :: d2 :: rest =>
      if c = '.' ∧ d1.isDigit = true ∧ d2.isDigit = true ∧ tailPatternOk rest = true then
        some ((d1.toNat - 48) * 10 + (d2.toNat - 48))
      else none
  | _ => none

/-- Leftmost match of the anchored pattern, as `re.search` finds it:
try `matchHere` at each successive start position. -/
def findYearTag : List Char → Option Nat
  | [] => none
  | c :: cs =>
      match matchHere (c :: cs) with
      | some t => some t
      | none => findYearTag cs

/-- Python `extract_year_from_filename`: decode the two-digit tag found
in the filename with the century heuristic (tag above 50 means 1900s,
tag 50 or below means 2000s); `none` when the pattern is absent. -/
def extract_year_from_filename (filename : String) : Option Nat :=
  match findYearTag filename.data with
  | some t => some (if 50 < t then 1900 + t else 2000 + t)
  | none => none

/-- Spec-side trailing pattern, written from the spec words: the
filename ends with a dot and exactly two digits, optionally followed by
another dot and a suffix containing no dot (the regex of the spec's
filename convention). -/
def specTrailingPattern (filename : String) : Prop :=
  ∃ pre d1 d2, d1.isDigit = true ∧ d2.isDigit = true ∧
    (filename.data = pre ++ ['.', d1, d2] ∨
     ∃ suf, (∀ c ∈ suf, c ≠ '.') ∧ filename.data = pre ++ ['.', d1, d2, '.'] ++ suf)

/-! ## MeasurementFileReader: `read_custom_space_separated_file`

`pd.read_csv(filepath, header=None, delim_whitespace=True)` tokenizes
the file: lines split on whitespace runs, blank lines skipped
(`skip_blank_lines`), the column count taken from the first row; a later
row with more fields raises a tokenizer error, a shorter row is padded
with `NaN`.  An empty tokenized table raises `EmptyDataError`.  Both
exceptions are caught by the function's `except` and become the `None`
failure result, while the explicit `ValueError` for fewer than two
columns is likewise caught; the embedding keeps the two causes apart as
`ReadFailure` before collapsing to `Option`. -/

/-- Splits a character list at every separator recognised by `p`,
keeping empty pieces between adjacent separators (the usual
string-split semantics). -/
def splitOnPred (p : Char → Bool) : List Char → List (List Char)
  | [] => [[]]
  | c :: cs =>
      if p c then [] :: splitOnPred p cs
      else
        match splitOnPred p cs with
        | [] => [[c]]
        | x :: xs => (c :: x) :: xs

/-- Whitespace-delimited tokenization of the file content, as the
pandas reader performs it: split into lines, split each line on
whitespace runs, drop empty fields, drop blank lines. -/
def parseTable (content : String) : List (List (List Char)) :=
  ((splitOnPred (fun c => c == '\n') content.data).map
     (fun line => (splitOnPred Char.isWhitespace line).filter (fun f => !f.isEmpty))).filter
    (fun r => !r.isEmpty)

/-- Value of a nonempty all-digit run, most significant digit first. -/
def digitsVal (l : List Char) : Nat :=
  l.foldl (fun a c => a * 10 + (c.toNat - 48)) 0

/-- True when every character of the run is a decimal digit. -/
def allDigits (l : List Char) : Bool :=
  l.all Char.isDigit

/-- Unsigned decimal mantissa: digits, or digits-dot-digits with at
least one digit present, as the pandas numeric parser accepts; the
digits-dot-digits form denotes the integer read off all digits divided
by ten to the number of fractional digits. -/
def parseUnsignedRat (l : List Char) : Option ℚ :=
  match l.span (fun c => decide (c ≠ '.')) with
  | (intPart, []) =>
      if intPart ≠ [] ∧ allDigits intPart = true then some (digitsVal intPart) else none
  | (intPart, _ :: fracPart) =>
      if allDigits intPart = true ∧ allDigits fracPart = true ∧
          (intPart ≠ [] ∨ fracPart ≠ []) then
        some ((digitsVal (intPart ++ fracPart) : ℚ) / ((10 ^ fracPart.length : ℕ) : ℚ))
      else none

/-- Optionally signed decimal integer (used for exponents). -/
def parseSignedInt (l : List Char) : Option ℤ :=
  match l with
  | '-' :: r => if r ≠ [] ∧ allDigits r = true then some (-(digitsVal r : ℤ)) else none
  | '+' :: r => if r ≠ [] ∧ allDigits r = true then some (digitsVal r : ℤ) else none
  | r => if r ≠ [] ∧ allDigits r = true then some (digitsVal r : ℤ) else none

/-- Unsigned mantissa with an optional decimal exponent part. -/
def parseUnsignedWithExp (l : List Char) : Option ℚ :=
  match l.span (fun c => decide (c ≠ 'e' ∧ c ≠ 'E')) with
  | (mant, []) => parseUnsignedRat mant
  | (mant, _ :: expPart) =>
      match parseUnsignedRat mant, parseSignedInt expPart with
      | some m, some k => some (m * (10 : ℚ) ^ k)
      | _, _ => none

/-- Numeric coercion applied to one field, modelling
`pd.to_numeric(-, errors='coerce')` on the tokenized string for
optionally signed decimal literals with an optional exponent; a field
that fails to coerce becomes `none` (pandas `NaN`). -/
def to_numeric_coerce (field : List Char) : Option ℚ :=
  match field with
  | '-' :: r => (parseUnsignedWithExp r).map (fun v => -v)
  | '+' :: r => parseUnsignedWithExp r
  | r => parseUnsignedWithExp r

/-- Failure cause of one file read: the explicit `ValueError` for fewer
than two columns, or any other exception of the reading step (empty
table, ragged tokenization). -/
inductive ReadFailure
  | FormatError
  | ReadError
deriving DecidableEq, Repr

/-- Cell extracted from one record: the second field (`df.iloc[:, 1]`)
coerced to a number, `Missing` when coercion fails or the padded row has
no second field. -/
def cellOfRecord (r : List (List Char)) : Cell :=
  match r[1]? with
  | some f =>
      match to_numeric_coerce f with
      | some v => Cell.Numeric v
      | none => Cell.Missing
  | none => Cell.Missing

/-- Python `read_custom_space_separated_file`, with the failure cause
kept explicit: tokenize, fail on an empty table or a row wider than the
first row (pandas exceptions), fail with `FormatError` when the table
has fewer than two columns, otherwise return one cell per record in
record order. -/
def readResult (content : String) : Except ReadFailure (List Cell) :=
  match parseTable content with
  | [] => Except.error ReadFailure.ReadError
  | r0 :: rest =>
      if (r0 :: rest).any (fun r => decide (r0.length < r.length)) then
        Except.error ReadFailure.ReadError
      else if r0.length < 2 then Except.error ReadFailure.FormatError
      else Except.ok ((r0 :: rest).map cellOfRecord)

/-- The function's caller only observes success or the `None` failure
signal. -/
def read_custom_space_separated_file (content : String) : Option (List Cell) :=
  (readResult content).toOption

/-! ## StationAggregator: the per-station file loop of `run_climate_processor`

The loop over `os.listdir(station_path)` skips directories, decodes
each file's year, and for a file matching the target year calls the
reader, appending a successful series to `current_station_data_parts`;
a reader failure is logged and skipped.  Directory entries are modelled
as the ordered list the enumeration yields. -/

/-- Directory entry of one station folder: its name, its content when
it is a file, and whether it is a subdirectory. -/
structure DirEntry where
  name : String
  content : String
  isDir : Bool
deriving DecidableEq, Repr

/-- Accumulated `current_station_data_parts` for one station: the loop
order is the list order. -/
def stationParts (t : Nat) : List DirEntry → List (List Cell)
  | [] => []
  | e :: rest =>
      if e.isDir then stationParts t rest
      else
        match extract_year_from_filename e.name with
        | none => stationParts t rest
        | some y =>
            if y = t then
              match readResult e.content with
              | Except.ok cells => cells :: stationParts t rest
              | Except.error _ => stationParts t rest
            else stationParts t rest

/-- Station column: `pd.concat(current_station_data_parts,
ignore_index=True)` when the parts list is nonempty, nothing otherwise
(the station is then excluded from `all_station_series`). -/
def stationColumn? (t : Nat) (files : List DirEntry) : Option (List Cell) :=
  match stationParts t files with
  | [] => none
  | parts@(_ :: _) => some parts.flatten

/-- Reader success as a boolean. -/
def readOk (content : String) : Bool :=
  match readResult content with
  | Except.ok _ => true
  | Except.error _ => false

/-- A directory entry that contributes to its station column: a file
(not a directory) whose decoded year equals the target year and whose
read succeeds. -/
def matchedOk (t : Nat) (e : DirEntry) : Bool :=
  !e.isDir && (extract_year_from_filename e.name == some t) && readOk e.content

/-- Series a contributing entry adds to the column. -/
def seriesOf (e : DirEntry) : List Cell :=
  match readResult e.content with
  | Except.ok cells => cells
  | Except.error _ => []

/-- The `all_station_series` mapping built by the outer station loop,
in station-processing order: each station that accumulated a nonempty
parts list contributes the column keyed by its name with the `_Data`
suffix. -/
def runStations (t : Nat) (stations : List (String × List DirEntry)) :
    List (String × List Cell) :=
  stations.filterMap (fun p => (stationColumn? t p.2).map (fun col => (p.1 ++ "_Data", col)))

/-! ## CrossStationConsolidator and SummaryRowBuilder -/

/-- Number of rows of `df_consolidated`: `pd.concat(-, axis=1)` aligns
the range-indexed series, so the row count is the greatest column
length. -/
def maxLen (cols : List (String × List Cell)) : Nat :=
  cols.foldr (fun p m => max p.2.length m) 0

/-- Tail padding with `NaN` that the index alignment applies to a short
column. -/
def padTo (n : Nat) (col : List Cell) : List Cell :=
  col ++ List.replicate (n - col.length) Cell.Missing

/-- The `Day_of_Year` column: numeric cells holding 1..n in order. -/
def dayColumn (n : Nat) : List Cell :=
  (List.range n).map (fun i => Cell.Numeric ((i + 1 : ℕ) : ℚ))

/-- `df_processed`: the consolidated table as an ordered list of named
columns, the day-index column inserted at position 0 and every station
column padded to the common length. -/
def consolidate (cols : List (String × List Cell)) : List (String × List Cell) :=
  ("Day_of_Year", dayColumn (maxLen cols)) ::
    cols.map (fun p => (p.1, padTo (maxLen cols) p.2))

/-- Numeric values of a column, missing cells ignored. -/
def numericValues (col : List Cell) : List ℚ :=
  col.filterMap (fun c =>
    match c with
    | Cell.Numeric v => some v
    | _ => none)

/-- Column mean as pandas `.mean()` computes it: `NaN` values are
skipped, and a column with no numeric value yields `NaN` (modelled
as `Missing`). -/
def meanCell (col : List Cell) : Cell :=
  match numericValues col with
  | [] => Cell.Missing
  | vs@(_ :: _) => Cell.Numeric (vs.sum / (vs.length : ℚ))

/-- `df_final`: one summary row appended to the table — the day-index
column gains the `"Mean"` label cell, every other column gains its mean
cell (mean computed excluding the day-index column). -/
def appendSummary (table : List (String × List Cell)) : List (String × List Cell) :=
  match table with
  | [] => []
  | (dn, dc) :: rest =>
      (dn, dc ++ [Cell.Label "Mean"]) ::
        rest.map (fun p => (p.1, p.2 ++ [meanCell p.2]))

/-! ## Lemmas about the year decoder -/

lemma digit_toNat_sub_le {c : Char} (h : c.isDigit = true) : c.toNat - 48 ≤ 9 := by
  simp [Char.isDigit] at h
  obtain ⟨h1, h2⟩ := h
  have hv : c.val.toNat ≤ 57 := by
    rw [UInt32.le_def] at h2
    exact h2
  simp [Char.toNat]
  omega

lemma tailPatternOk_iff (l : List Char) :
    tailPatternOk l = true ↔ l = [] ∨ ∃ r, l = '.' :: r ∧ ∀ x ∈ r, x ≠ '.' := by
  cases l with
  | nil => simp [tailPatternOk]
  | cons c r =>
      simp [tailPatternOk, List.all_eq_true]
      constructor
      · rintro ⟨hc, hr⟩
        exact ⟨r, ⟨hc, rfl⟩, hr⟩
      · rintro ⟨r2, ⟨hc, hr2⟩, hr⟩
        subst hr2
        exact ⟨hc, hr⟩

lemma matchHere_some_iff (l : List Char) (t : Nat) :
    matchHere l = some t ↔
      ∃ d1 d2 rest, l = '.' :: d1 :: d2 :: rest ∧ d1.isDigit = true ∧ d2.isDigit = true ∧
        tailPatternOk rest = true ∧ t = (d1.toNat - 48) * 10 + (d2.toNat - 48) := by
  match l with
  | [] => simp [matchHere]
  | [c] => simp [matchHere]
  | [c, d] => simp [matchHere]
  | c :: d1 :: d2 :: rest =>
      simp only [matchHere]
      split_ifs with h
      · obtain ⟨hc, hd1, hd2, htail⟩ := h
        subst hc
        constructor
        · intro ht
          exact ⟨d1, d2, rest, rfl, hd1, hd2, htail, (Option.some.inj ht).symm⟩
        · rintro ⟨e1, e2, r2, heq, -, -, -, ht⟩
          simp only [List.cons.injEq] at heq
          obtain ⟨-, h1, h2, h3⟩ := heq
          subst h1
          subst h2
          subst h3
          rw [ht]
      · constructor
        · intro hcon
          exact absurd hcon (by simp)
        · rintro ⟨e1, e2, r2, heq, he1, he2, ht2, -⟩
          simp only [List.cons.injEq] at heq
          obtain ⟨hc, h1, h2, h3⟩ := heq
          subst h1
          subst h2
          subst h3
          exact absurd ⟨hc, he1, he2, ht2⟩ h

lemma matchHere_some_le {l : List Char} {t : Nat} (h : matchHere l = some t) : t ≤ 99 := by
  obtain ⟨d1, d2, rest, -, hd1, hd2, -, ht⟩ := (matchHere_some_iff l t).mp h
  have b1 := digit_toNat_sub_le hd1
  have b2 := digit_toNat_sub_le hd2
  omega

lemma findYearTag_isSome_iff (l : List Char) :
    (∃ t, findYearTag l = some t) ↔ ∃ l1 l2 t, l = l1 ++ l2 ∧ matchHere l2 = some t := by
  induction l with
  | nil =>
      constructor
      · rintro ⟨t, ht⟩
        exact absurd ht (by simp [findYearTag])
      · rintro ⟨l1, l2, t, heq, hm⟩
        obtain ⟨h1, h2⟩ := List.append_eq_nil.mp heq.symm
        subst h2
        exact absurd hm (by simp [matchHere])
  | cons c cs ih =>
      constructor
      · rintro ⟨t, ht⟩
        rw [findYearTag] at ht
        cases hm : matchHere (c :: cs) with
        | some u =>
            exact ⟨[], c :: cs, u, rfl, hm⟩
        | none =>
            rw [hm] at ht
            obtain ⟨l1, l2, u, heq, hmu⟩ := ih.mp ⟨t, ht⟩
            exact ⟨c :: l1, l2, u, by rw [heq, List.cons_append], hmu⟩
      · rintro ⟨l1, l2, t, heq, hm⟩
        rw [findYearTag]
        cases hm0 : matchHere (c :: cs) with
        | some u => exact ⟨u, rfl⟩
        | none =>
            cases l1 with
            | nil =>
                simp only [List.nil_append] at heq
                rw [← heq, hm0] at hm
                cases hm
            | cons a l1r =>
                simp only [List.cons_append, List.cons.injEq] at heq
                exact ih.mpr ⟨l1r, l2, t, heq.2, hm⟩

lemma findYearTag_some_le {l : List Char} {t : Nat} (h : findYearTag l = some t) : t ≤ 99 := by
  induction l with
  | nil => exact absurd h (by simp [findYearTag])
  | cons c cs ih =>
      rw [findYearTag] at h
      cases hm : matchHere (c :: cs) with
      | some u =>
          rw [hm] at h
          rw [Option.some.inj h] at hm
          exact matchHere_some_le hm
      | none =>
          rw [hm] at h
          exact ih h

lemma extract_isSome_iff (s : String) :
    (extract_year_from_filename s).isSome = true ↔ specTrailingPattern s := by
  have hiff : (extract_year_from_filename s).isSome = true ↔ ∃ t, findYearTag s.data = some t := by
    unfold extract_year_from_filename
    cases h : findYearTag s.data <;> simp [h]
  rw [hiff, findYearTag_isSome_iff]
  constructor
  · rintro ⟨l1, l2, t, heq, hm⟩
    obtain ⟨d1, d2, rest, hl2, hd1, hd2, htail, -⟩ := (matchHere_some_iff l2 t).mp hm
    rcases (tailPatternOk_iff rest).mp htail with hrest | ⟨suf, hrest, hsuf⟩
    · subst hrest
      exact ⟨l1, d1, d2, hd1, hd2, Or.inl (by rw [heq, hl2])⟩
    · subst hrest
      exact ⟨l1, d1, d2, hd1, hd2, Or.inr ⟨suf, hsuf, by rw [heq, hl2]; simp⟩⟩
  · rintro ⟨pre, d1, d2, hd1, hd2, h1 | ⟨suf, hsuf, h2⟩⟩
    · refine ⟨pre, ['.', d1, d2], (d1.toNat - 48) * 10 + (d2.toNat - 48), h1, ?_⟩
      exact (matchHere_some_iff _ _).mpr ⟨d1, d2, [], rfl, hd1, hd2, rfl, rfl⟩
    · refine ⟨pre, ['.', d1, d2, '.'] ++ suf, (d1.toNat - 48) * 10 + (d2.toNat - 48),
        by rw [h2, List.append_assoc], ?_⟩
      refine (matchHere_some_iff _ _).mpr ⟨d1, d2, '.' :: suf, by simp, hd1, hd2, ?_, rfl⟩
      exact (tailPatternOk_iff ('.' :: suf)).mpr (Or.inr ⟨suf, rfl, hsuf⟩)

/-- C1: whenever the year decoder finds a two-digit tag t in a filename, the
returned four-digit year is 1900 + t for t above 50 and 2000 + t for t at
most 50, so the asymmetric boundary at 50/51 holds for the rule itself. -/
theorem claim_C1_century_rule : ∀ (s : String) (t : Nat), findYearTag s.data = some t →
    (50 < t → extract_year_from_filename s = some (1900 + t)) ∧
    (t ≤ 50 → extract_year_from_filename s = some (2000 + t)) := by
  intro s t h
  unfold extract_year_from_filename
  rw [h]
  constructor
  · intro h50
    simp [h50]
  · intro h50
    simp [Nat.not_lt.mpr h50]

/-- Witness for C1: tag 51 decodes to 1951 and tag 50 decodes to 2050 on
concrete filenames. -/
theorem claim_C1_century_rule_witness :
    extract_year_from_filename "AS010319.51" = some 1951 ∧
    extract_year_from_filename "AS010324.50" = some 2050 :=
  ⟨(claim_C1_century_rule "AS010319.51" 51 (by decide)).1 (by decide),
   (claim_C1_century_rule "AS010324.50" 50 (by decide)).2 (by decide)⟩

/-- C2: the decoder returns a year exactly when the filename ends with a dot,
two digits, and an optional dot-plus-dot-free-suffix (the spec's trailing
pattern); otherwise it returns the no-year signal `none`; and the three
documented examples evaluate as the spec states. -/
theorem claim_C2_trailing_pattern :
    (∀ s : String, (extract_year_from_filename s).isSome = true ↔ specTrailingPattern s) ∧
    extract_year_from_filename "AS010319.92" = some 1992 ∧
    extract_year_from_filename "AS010324.05" = some 2005 ∧
    extract_year_from_filename "readme.txt" = none :=
  ⟨extract_isSome_iff, by decide, by decide, by decide⟩

/-- C9: any year the decoder returns lies between 1951 and 2050 inclusive,
because a two-digit tag is at most 99. -/
theorem claim_C9_year_range : ∀ (s : String) (y : Nat),
    extract_year_from_filename s = some y → 1951 ≤ y ∧ y ≤ 2050 := by
  intro s y h
  unfold extract_year_from_filename at h
  cases hf : findYearTag s.data with
  | none =>
      rw [hf] at h
      cases h
  | some t =>
      rw [hf] at h
      have hle := findYearTag_some_le hf
      have hy := Option.some.inj h
      split_ifs at hy with h50 <;> omega

/-- Witness for C9: the decoder applied to a concrete filename yields a year
inside the 1951..2050 window. -/
theorem claim_C9_year_range_witness : 1951 ≤ 1992 ∧ 1992 ≤ 2050 :=
  claim_C9_year_range "AS010319.92" 1992 (by decide)

/-! ## Lemmas about the reader and the station loop -/

lemma readResult_ok_iff {content : String} {cells : List Cell}
    (h : readResult content = Except.ok cells) :
    cells = (parseTable content).map cellOfRecord := by
  unfold readResult at h
  split at h
  · cases h
  · rename_i r0 rest heq
    split_ifs at h with h1 h2
    all_goals cases h
    rw [heq]

lemma readResult_of_parseTable_nil {content : String} (h : parseTable content = []) :
    readResult content = Except.error ReadFailure.ReadError := by
  unfold readResult
  rw [h]

/-- C3: when the reader succeeds, it returns exactly one cell per tokenized
record, in record order — the second field coerced to a number, or `Missing`
when coercion fails — so no record is dropped and row positions stay aligned;
and on the documented three-line content the result is
Numeric 10.5, Missing, Numeric 12, of length 3. -/
theorem claim_C3_row_alignment :
    (∀ (content : String) (cells : List Cell), readResult content = Except.ok cells →
        cells = (parseTable content).map cellOfRecord) ∧
    readResult "1 10.5\n2 bad\n3 12.0\n" =
      Except.ok [Cell.Numeric (21 / 2), Cell.Missing, Cell.Numeric 12] := by
  refine ⟨fun _ _ h => readResult_ok_iff h, ?_⟩
  have hstep : readResult "1 10.5\n2 bad\n3 12.0\n" =
      Except.ok [Cell.Numeric (((105 : ℕ) : ℚ) / ((10 : ℕ) : ℚ)), Cell.Missing,
        Cell.Numeric (((120 : ℕ) : ℚ) / ((10 : ℕ) : ℚ))] := rfl
  rw [hstep]
  norm_num

/-- Witness for C3: the general alignment statement applied to the concrete
three-record content. -/
theorem claim_C3_row_alignment_witness :
    [Cell.Numeric (((105 : ℕ) : ℚ) / ((10 : ℕ) : ℚ)), Cell.Missing,
        Cell.Numeric (((120 : ℕ) : ℚ) / ((10 : ℕ) : ℚ))] =
      (parseTable "1 10.5\n2 bad\n3 12.0\n").map cellOfRecord :=
  claim_C3_row_alignment.1 "1 10.5\n2 bad\n3 12.0\n"
    [Cell.Numeric (((105 : ℕ) : ℚ) / ((10 : ℕ) : ℚ)), Cell.Missing,
      Cell.Numeric (((120 : ℕ) : ℚ) / ((10 : ℕ) : ℚ))] (by rfl)

/-- C4: a parsed table with fewer than two columns (the width taken once from
the table, not per record) makes the reader fail with the `FormatError`
signal; the station loop skips a matched file whose read fails and continues
with the remaining files; and results already collected for other stations
survive, so the run is not aborted. -/
theorem claim_C4_format_error :
    (∀ (content : String) (r0 : List (List Char)) (rest : List (List (List Char))),
        parseTable content = r0 :: rest →
        (∀ r ∈ parseTable content, r.length ≤ r0.length) →
        r0.length < 2 →
        readResult content = Except.error ReadFailure.FormatError) ∧
    (∀ (t : Nat) (e : DirEntry) (rest : List DirEntry) (f : ReadFailure),
        e.isDir = false → extract_year_from_filename e.name = some t →
        readResult e.content = Except.error f →
        stationParts t (e :: rest) = stationParts t rest) ∧
    (∀ (t : Nat) (st : String × List DirEntry) (stations : List (String × List DirEntry))
        (nm : String) (col : List Cell),
        (nm, col) ∈ runStations t stations → (nm, col) ∈ runStations t (st :: stations)) := by
  refine ⟨?_, ?_, ?_⟩
  · intro content r0 rest heq hle hlt
    unfold readResult
    rw [heq]
    have hany : ((r0 :: rest).any (fun r => decide (r0.length < r.length))) = false := by
      simp only [List.any_eq_false, decide_eq_true_eq]
      intro r hr
      have := hle r (by rw [heq]; exact hr)
      omega
    simp [hany, hlt]
  · intro t e rest f hdir hyear hread
    rw [stationParts]
    simp [hdir, hyear, hread]
  · intro t st stations nm col hmem
    unfold runStations at hmem ⊢
    rw [List.filterMap_cons]
    cases hc : stationColumn? t st.2 with
    | none =>
        simp only [hc, Option.map_none']
        exact hmem
    | some c =>
        simp only [hc, Option.map_some']
        exact List.mem_cons_of_mem _ hmem

/-- Witness for C4: a two-record one-column file fails with `FormatError`; a
matched unreadable file is dropped from the parts while the loop goes on; and
a previously collected station column survives a new station in front. -/
theorem claim_C4_format_error_witness :
    readResult "1\n2\n" = Except.error ReadFailure.FormatError ∧
    stationParts 1992 [⟨"x.92", "1\n2\n", false⟩] = stationParts 1992 [] ∧
    ("A_Data", [Cell.Numeric 2]) ∈
      runStations 1992 [("C", []), ("A", [⟨"a.92", "1 2\n", false⟩])] :=
  ⟨claim_C4_format_error.1 "1\n2\n" [['1']] [[['2']]] (by rfl) (by decide) (by decide),
   claim_C4_format_error.2.1 1992 ⟨"x.92", "1\n2\n", false⟩ [] ReadFailure.FormatError
     (by rfl) (by rfl) (by rfl),
   claim_C4_format_error.2.2 1992 ("C", []) [("A", [⟨"a.92", "1 2\n", false⟩])]
     "A_Data" [Cell.Numeric 2] (by decide)⟩

lemma stationParts_eq (t : Nat) (files : List DirEntry) :
    stationParts t files = (files.filter (fun e => matchedOk t e)).map seriesOf := by
  induction files with
  | nil => rfl
  | cons e rest ih =>
      rw [stationParts]
      by_cases hd : e.isDir
      · simp [hd, matchedOk, List.filter_cons, ih]
      · cases hy : extract_year_from_filename e.name with
        | none => simp [hd, hy, matchedOk, List.filter_cons, ih]
        | some y =>
            by_cases hyt : y = t
            · cases hr : readResult e.content with
              | ok cells =>
                  simp [hd, hy, hyt, hr, matchedOk, readOk, seriesOf, List.filter_cons, ih]
              | error f =>
                  simp [hd, hy, hyt, hr, matchedOk, readOk, List.filter_cons, ih]
            · simp [hd, hy, hyt, matchedOk, List.filter_cons, ih]

lemma stationColumn_isSome_iff (t : Nat) (files : List DirEntry) :
    (stationColumn? t files).isSome = true ↔ ∃ e ∈ files, matchedOk t e = true := by
  unfold stationColumn?
  rw [stationParts_eq]
  cases hp : (files.filter (fun e => matchedOk t e)).map seriesOf with
  | nil =>
      constructor
      · intro hcon
        simp at hcon
      · rintro ⟨e, he, hm⟩
        rw [List.map_eq_nil_iff, List.filter_eq_nil_iff] at hp
        exact absurd hm (by simpa using hp e he)
  | cons p ps =>
      have hne : (files.filter (fun e => matchedOk t e)) ≠ [] := by
        intro hnil
        rw [hnil] at hp
        cases hp
      obtain ⟨e, he⟩ := List.exists_mem_of_ne_nil _ hne
      constructor
      · intro _
        exact ⟨e, (List.mem_filter.mp he).1, (List.mem_filter.mp he).2⟩
      · intro _
        rfl

/-- C5: a station contributes a column exactly when at least one of its
directory entries is a file whose decoded year equals the target year and
whose read succeeds; a station with no such file yields no column at all, and
every column of the consolidated mapping comes from such a station — an
excluded station is never represented by an all-missing column. -/
theorem claim_C5_station_inclusion :
    (∀ (t : Nat) (files : List DirEntry),
        (stationColumn? t files).isSome = true ↔ ∃ e ∈ files, matchedOk t e = true) ∧
    (∀ (t : Nat) (stations : List (String × List DirEntry)) (name : String)
        (files : List DirEntry), (name, files) ∈ stations →
        (stationColumn? t files).isSome = true →
        ∃ col, (name ++ "_Data", col) ∈ runStations t stations) ∧
    (∀ (t : Nat) (stations : List (String × List DirEntry)) (nm : String)
        (col : List Cell), (nm, col) ∈ runStations t stations →
        ∃ sname sfiles, (sname, sfiles) ∈ stations ∧ nm = sname ++ "_Data" ∧
          stationColumn? t sfiles = some col) := by
  refine ⟨stationColumn_isSome_iff, ?_, ?_⟩
  · intro t stations name files hmem hsome
    obtain ⟨col, hcol⟩ := Option.isSome_iff_exists.mp hsome
    refine ⟨col, List.mem_filterMap.mpr ⟨(name, files), hmem, ?_⟩⟩
    rw [hcol]
    rfl
  · intro t stations nm col hmem
    obtain ⟨⟨sname, sfiles⟩, hmem2, hf⟩ := List.mem_filterMap.mp hmem
    cases hc : stationColumn? t sfiles with
    | none =>
        rw [hc] at hf
        cases hf
    | some c =>
        rw [hc, Option.map_some'] at hf
        obtain ⟨h1, h2⟩ := Prod.mk.inj (Option.some.inj hf)
        exact ⟨sname, sfiles, hmem2, h1.symm, by rw [hc, h2]⟩

/-- Witness for C5: with one concrete station holding one matched readable
file, the inclusion step produces its column and every produced column traces
back to such a station. -/
theorem claim_C5_station_inclusion_witness :
    (∃ col, ("A_Data", col) ∈ runStations 1992 [("A", [⟨"a.92", "1 2\n", false⟩])]) ∧
    (∃ sname sfiles, (sname, sfiles) ∈ [("A", [⟨"a.92", "1 2\n", false⟩])] ∧
        "A_Data" = sname ++ "_Data" ∧
        stationColumn? 1992 sfiles = some [Cell.Numeric 2]) :=
  ⟨claim_C5_station_inclusion.2.1 1992 [("A", [⟨"a.92", "1 2\n", false⟩])] "A"
      [⟨"a.92", "1 2\n", false⟩] (List.mem_singleton.mpr rfl) (by rfl),
   claim_C5_station_inclusion.2.2 1992 [("A", [⟨"a.92", "1 2\n", false⟩])] "A_Data"
      [Cell.Numeric 2] (by decide)⟩

/-- C6: a produced station column is the concatenation, in directory order,
of the series of the successfully read files matching the target year, and
its length is the sum of their lengths. -/
theorem claim_C6_concatenation : ∀ (t : Nat) (files : List DirEntry) (col : List Cell),
    stationColumn? t files = some col →
    col = ((files.filter (fun e => matchedOk t e)).map seriesOf).flatten ∧
    col.length =
      ((files.filter (fun e => matchedOk t e)).map (fun e => (seriesOf e).length)).sum := by
  intro t files col h
  unfold stationColumn? at h
  rw [stationParts_eq] at h
  cases hp : (files.filter (fun e => matchedOk t e)).map seriesOf with
  | nil =>
      rw [hp] at h
      cases h
  | cons p ps =>
      rw [hp] at h
      have hc : (p :: ps).flatten = col := Option.some.inj h
      constructor
      · exact hc.symm
      · rw [← hc, List.length_flatten, ← hp, List.map_map]
        rfl

/-- Witness for C6: two matched files with three and two records produce the
five-cell column equal to the first series followed by the second. -/
theorem claim_C6_concatenation_witness :
    [Cell.Numeric 1, Cell.Numeric 2, Cell.Numeric 3, Cell.Numeric 4, Cell.Numeric 5] =
      ((([⟨"a.92", "1 1\n2 2\n3 3\n", false⟩, ⟨"b.92", "1 4\n2 5\n", false⟩] :
          List DirEntry).filter
        (fun e => matchedOk 1992 e)).map seriesOf).flatten ∧
    ([Cell.Numeric 1, Cell.Numeric 2, Cell.Numeric 3, Cell.Numeric 4,
        Cell.Numeric 5] : List Cell).length =
      ((([⟨"a.92", "1 1\n2 2\n3 3\n", false⟩, ⟨"b.92", "1 4\n2 5\n", false⟩] :
          List DirEntry).filter
        (fun e => matchedOk 1992 e)).map (fun e => (seriesOf e).length)).sum :=
  claim_C6_concatenation 1992
    [⟨"a.92", "1 1\n2 2\n3 3\n", false⟩, ⟨"b.92", "1 4\n2 5\n", false⟩]
    [Cell.Numeric 1, Cell.Numeric 2, Cell.Numeric 3, Cell.Numeric 4, Cell.Numeric 5]
    (by rfl)

/-- C10: a matched file whose content tokenizes to zero records makes the
reader fail (it never returns an empty series), the empty string tokenizes to
zero records, and a station all of whose year-matched files are empty is
excluded from the table. -/
theorem claim_C10_empty_file :
    (∀ content : String, parseTable content = [] →
        readResult content = Except.error ReadFailure.ReadError) ∧
    parseTable "" = [] ∧
    (∀ (t : Nat) (files : List DirEntry),
        (∀ e ∈ files, e.isDir = false → extract_year_from_filename e.name = some t →
          parseTable e.content = []) →
        stationColumn? t files = none) := by
  refine ⟨fun _ h => readResult_of_parseTable_nil h, rfl, ?_⟩
  intro t files hall
  have hparts : stationParts t files = [] := by
    rw [stationParts_eq, List.map_eq_nil_iff, List.filter_eq_nil_iff]
    intro e he
    simp only [Bool.not_eq_true]
    unfold matchedOk
    by_cases hd : e.isDir
    · simp [hd]
    · cases hy : extract_year_from_filename e.name with
      | none => simp [hy]
      | some y =>
          by_cases hyt : y = t
          · subst hyt
            have hro : readOk e.content = false := by
              unfold readOk
              rw [readResult_of_parseTable_nil (hall e he (by simpa using hd) hy)]
            simp [hro]
          · simp [hy, hyt]
  unfold stationColumn?
  rw [hparts]

/-- Witness for C10: the empty string parses to no records, so the reader
fails on it and a station whose single matched file is empty is excluded. -/
theorem claim_C10_empty_file_witness :
    readResult "" = Except.error ReadFailure.ReadError ∧
    stationColumn? 1992 [⟨"x.92", "", false⟩] = none :=
  ⟨claim_C10_empty_file.1 "" (by rfl),
   claim_C10_empty_file.2.2 1992 [⟨"x.92", "", false⟩] (by decide)⟩

/-! ## Lemmas about consolidation and the summary row -/

lemma le_maxLen (cols : List (String × List Cell)) (p : String × List Cell)
    (hp : p ∈ cols) : p.2.length ≤ maxLen cols := by
  induction cols with
  | nil => cases hp
  | cons q rest ih =>
      show p.2.length ≤ max q.2.length (maxLen rest)
      rcases List.mem_cons.mp hp with h | h
      · rw [h]
        exact le_max_left _ _
      · exact le_trans (ih h) (le_max_right _ _)

/-- C7: before the summary row, every column of the consolidated table has
the common length given by the longest station column; each station column
gets its tail padded with `Missing` up to that length; and the leading
day-index column holds the numeric values 1..N in order, never `Missing`. -/
theorem claim_C7_alignment_padding : ∀ cols : List (String × List Cell),
    (∀ p ∈ consolidate cols, p.2.length = maxLen cols) ∧
    (consolidate cols).head? = some ("Day_of_Year", dayColumn (maxLen cols)) ∧
    (∀ p ∈ cols,
        (p.1, p.2 ++ List.replicate (maxLen cols - p.2.length) Cell.Missing) ∈
          consolidate cols) ∧
    (∀ i < maxLen cols,
        (dayColumn (maxLen cols))[i]? = some (Cell.Numeric ((i + 1 : ℕ) : ℚ))) ∧
    (∀ c ∈ dayColumn (maxLen cols), c ≠ Cell.Missing) := by
  intro cols
  refine ⟨?_, rfl, ?_, ?_, ?_⟩
  · intro p hp
    rcases List.mem_cons.mp hp with h | h
    · rw [h]
      simp [dayColumn]
    · obtain ⟨q, hq, hqe⟩ := List.mem_map.mp h
      rw [← hqe]
      have := le_maxLen cols q hq
      simp [padTo]
      omega
  · intro p hp
    exact List.mem_cons_of_mem _ (List.mem_map_of_mem _ hp)
  · intro i hi
    unfold dayColumn
    rw [List.getElem?_map, List.getElem?_range hi]
    rfl
  · intro c hc
    obtain ⟨i, -, hce⟩ := List.mem_map.mp hc
    rw [← hce]
    intro hcon
    cases hcon

/-- Witness for C7: with station columns of lengths five and three, the
padded table has five-cell columns, the short column is padded with two
missing cells, and the day column starts at the numeric value 1. -/
theorem claim_C7_alignment_padding_witness :
    (("B_Data",
        [Cell.Numeric 7, Cell.Numeric 8, Cell.Numeric 9] ++
          List.replicate
            (maxLen [("A_Data",
                [Cell.Numeric 1, Cell.Numeric 2, Cell.Numeric 3, Cell.Numeric 4,
                  Cell.Numeric 5]),
              ("B_Data", [Cell.Numeric 7, Cell.Numeric 8, Cell.Numeric 9])] - 3)
            Cell.Missing) ∈
      consolidate [("A_Data",
          [Cell.Numeric 1, Cell.Numeric 2, Cell.Numeric 3, Cell.Numeric 4,
            Cell.Numeric 5]),
        ("B_Data", [Cell.Numeric 7, Cell.Numeric 8, Cell.Numeric 9])]) ∧
    (dayColumn (maxLen [("A_Data",
          [Cell.Numeric 1, Cell.Numeric 2, Cell.Numeric 3, Cell.Numeric 4,
            Cell.Numeric 5]),
        ("B_Data", [Cell.Numeric 7, Cell.Numeric 8, Cell.Numeric 9])]))[0]? =
      some (Cell.Numeric ((0 + 1 : ℕ) : ℚ)) :=
  ⟨(claim_C7_alignment_padding
        [("A_Data",
            [Cell.Numeric 1, Cell.Numeric 2, Cell.Numeric 3, Cell.Numeric 4,
              Cell.Numeric 5]),
          ("B_Data", [Cell.Numeric 7, Cell.Numeric 8, Cell.Numeric 9])]).2.2.1
      ("B_Data", [Cell.Numeric 7, Cell.Numeric 8, Cell.Numeric 9])
      (List.mem_cons_of_mem _ (List.mem_singleton.mpr rfl)),
   (claim_C7_alignment_padding
        [("A_Data",
            [Cell.Numeric 1, Cell.Numeric 2, Cell.Numeric 3, Cell.Numeric 4,
              Cell.Numeric 5]),
          ("B_Data", [Cell.Numeric 7, Cell.Numeric 8, Cell.Numeric 9])]).2.2.2.1 0
      (by decide)⟩

/-- C8: the summary step appends exactly one row — each column is its old
cells plus one cell, the column names and order are unchanged, the day-index
column ends with the label Mean, every station column ends with its mean
over numeric cells ignoring missing ones — and the documented mean examples
hold: mean of 10 and 12 with a missing cell is 11, and an all-missing column
has a missing mean. -/
theorem claim_C8_summary_row : ∀ (dn : String) (dc : List Cell)
    (rest : List (String × List Cell)),
    ((appendSummary ((dn, dc) :: rest)).map Prod.fst = ((dn, dc) :: rest).map Prod.fst) ∧
    (appendSummary ((dn, dc) :: rest)).head? = some (dn, dc ++ [Cell.Label "Mean"]) ∧
    (∀ p ∈ rest, (p.1, p.2 ++ [meanCell p.2]) ∈ appendSummary ((dn, dc) :: rest)) ∧
    (∀ q ∈ appendSummary ((dn, dc) :: rest), ∃ p ∈ (dn, dc) :: rest,
        q.1 = p.1 ∧ q.2.length = p.2.length + 1 ∧ q.2.take p.2.length = p.2) ∧
    meanCell [Cell.Numeric 10, Cell.Missing, Cell.Numeric 12] = Cell.Numeric 11 ∧
    meanCell [Cell.Missing, Cell.Missing, Cell.Missing] = Cell.Missing := by
  intro dn dc rest
  refine ⟨?_, rfl, ?_, ?_, ?_, ?_⟩
  · simp [appendSummary, List.map_map, Function.comp]
  · intro p hp
    exact List.mem_cons_of_mem _ (List.mem_map_of_mem _ hp)
  · intro q hq
    rcases List.mem_cons.mp hq with h | h
    · refine ⟨(dn, dc), List.mem_cons_self _ _, ?_⟩
      rw [h]
      refine ⟨rfl, by simp, ?_⟩
      simp [List.take_left]
    · obtain ⟨p, hp, hpe⟩ := List.mem_map.mp h
      refine ⟨p, List.mem_cons_of_mem _ hp, ?_⟩
      rw [← hpe]
      refine ⟨rfl, by simp, ?_⟩
      simp [List.take_left]
  · have hv : numericValues [Cell.Numeric 10, Cell.Missing, Cell.Numeric 12] =
        [(10 : ℚ), 12] := rfl
    unfold meanCell
    rw [hv]
    norm_num
  · rfl

/-- Witness for C8: after the summary step on a concrete two-column table,
the station column ends with its mean cell and every column grew by exactly
one cell. -/
theorem claim_C8_summary_row_witness :
    (("A_Data",
        [Cell.Numeric 10, Cell.Missing, Cell.Numeric 12] ++
          [meanCell [Cell.Numeric 10, Cell.Missing, Cell.Numeric 12]]) ∈
      appendSummary [("Day_of_Year", [Cell.Numeric 1, Cell.Numeric 2, Cell.Numeric 3]),
        ("A_Data", [Cell.Numeric 10, Cell.Missing, Cell.Numeric 12])]) ∧
    (∃ p ∈ [("Day_of_Year", [Cell.Numeric 1, Cell.Numeric 2, Cell.Numeric 3]),
        ("A_Data", [Cell.Numeric 10, Cell.Missing, Cell.Numeric 12])],
      (("Day_of_Year" : String),
          [Cell.Numeric 1, Cell.Numeric 2, Cell.Numeric 3, Cell.Label "Mean"]).1 = p.1 ∧
        ([Cell.Numeric 1, Cell.Numeric 2, Cell.Numeric 3,
            Cell.Label "Mean"] : List Cell).length = p.2.length + 1 ∧
        ([Cell.Numeric 1, Cell.Numeric 2, Cell.Numeric 3,
            Cell.Label "Mean"] : List Cell).take p.2.length = p.2) :=
  ⟨(claim_C8_summary_row "Day_of_Year" [Cell.Numeric 1, Cell.Numeric 2, Cell.Numeric 3]
        [("A_Data", [Cell.Numeric 10, Cell.Missing, Cell.Numeric 12])]).2.2.1
      ("A_Data", [Cell.Numeric 10, Cell.Missing, Cell.Numeric 12])
      (List.mem_singleton.mpr rfl),
   (claim_C8_summary_row "Day_of_Year" [Cell.Numeric 1, Cell.Numeric 2, Cell.Numeric 3]
        [("A_Data", [Cell.Numeric 10, Cell.Missing, Cell.Numeric 12])]).2.2.2.1
      ("Day_of_Year", [Cell.Numeric 1, Cell.Numeric 2, Cell.Numeric 3, Cell.Label "Mean"])
      (List.mem_cons_self _ _)⟩

end ClimateApp
